import Mathlib

/-!
Shallow embedding of the appointment scheduling subsystem of the
e-hospitality Django application.

Sources embedded:
  * `core/models.py` — the `Appointment` model, its status enum and the
    `unique_together = ('doctor', 'appointment_date')` storage constraint;
  * `doctors/views.py` — `create_appointment`, `complete_appointment`,
    `cancel_appointment`, `doctor_dashboard` (window counts) and
    `doctor_schedule` (week normalisation and the day×hour grid);
  * `patients/views.py` — `book_appointment` and the patient-side
    `cancel_appointment`.

Timestamps are modelled as a calendar day ordinal (an integer, with the
convention of Python's `date.toordinal`: day 1 is a Monday, so
`weekday d = (d - 1) % 7` with Monday = 0) together with an hour and a
minute.  Stores are association lists from a row id to an appointment
record; the Django auto-increment primary key is modelled by `nextId`.
-/

namespace EHosp

/-- Status enumeration from `Appointment.STATUS_CHOICES` in `core/models.py`. -/
inductive Status where
  | scheduled
  | completed
  | cancelled
  | noShow
deriving DecidableEq, Repr

/-- A timezone-aware instant: calendar-day ordinal (Python `date.toordinal`,
day 1 = Monday of year 1), hour and minute.  `appointment_date__date` is the
`day` field and `appointment_date__hour` the `hour` field. -/
structure DateTime where
  day : Int
  hour : Nat
  minute : Nat
deriving DecidableEq, Repr

/-- Linearisation of an instant, used for chronological comparison
(`appointment_datetime <= timezone.now()`). -/
def DateTime.toMinutes (t : DateTime) : Int :=
  t.day * 1440 + (t.hour : Int) * 60 + (t.minute : Int)

/-- The `Appointment` model of `core/models.py`: patient and doctor foreign
keys (modelled as ids), timestamp, free-text reason, status (default
scheduled), notes (blank by default), `created_at` and `updated_at`. -/
structure Appointment where
  patient : Nat
  doctor : Nat
  appointment_date : DateTime
  reason : String
  status : Status
  notes : String
  created_at : DateTime
  updated_at : DateTime
deriving DecidableEq, Repr

/-- The appointment table: auto-increment id counter plus rows keyed by id. -/
structure Store where
  nextId : Nat
  rows : List (Nat × Appointment)
deriving DecidableEq, Repr

/-- The empty appointment table. -/
def Store.empty : Store := ⟨0, []⟩

/-- Does some row already hold the (doctor, appointment_date) pair?  This is
the `unique_together = ('doctor', 'appointment_date')` constraint from
`core/models.py`, which is NOT scoped to status. -/
def Store.hasPair (s : Store) (d : Nat) (t : DateTime) : Bool :=
  s.rows.any fun r => decide (r.2.doctor = d ∧ r.2.appointment_date = t)

/-- Row insertion at the storage layer: `Appointment.objects.create` either
commits the row (fresh id) or raises an `IntegrityError` (here: `none`) when
the `unique_together` constraint is violated.  No partial write occurs. -/
def dbInsert (s : Store) (a : Appointment) : Option (Store × Nat) :=
  if s.hasPair a.doctor a.appointment_date then none
  else some (⟨s.nextId + 1, s.rows ++ [(s.nextId, a)]⟩, s.nextId)

/-- Outcome of an appointment-creation request, one constructor per distinct
user-facing message of the two creation views. -/
inductive CreateResult where
  | created (id : Nat)
  | validationError
  | patientNotFound
  | pastDateError
  | conflictError
  | genericError
deriving DecidableEq, Repr

/-- Conflict check of `doctors/views.py` lines 305–314: an existing
appointment for the same doctor at exactly the same timestamp with
status = scheduled. -/
def hasScheduledConflict (s : Store) (d : Nat) (t : DateTime) : Bool :=
  s.rows.any fun r =>
    decide (r.2.doctor = d ∧ r.2.appointment_date = t ∧ r.2.status = Status.scheduled)

/-- Doctor-side creation, `doctors/views.py` `create_appointment` (POST
branch).  In source order: required-field validation, patient lookup,
future-time check, scheduled-conflict check, then the insert; an
`IntegrityError` escaping the insert is caught by the broad
`except Exception` and surfaced as a generic error.  `when = none` stands
for a missing or unparsable date/time pair (both are rejected with no
write). -/
def create_appointment (s : Store) (doctor : Nat) (patients : List Nat)
    (patientId : Option Nat) (when : Option DateTime) (reason : String)
    (notes : String) (now : DateTime) : CreateResult × Store :=
  match patientId, when with
  | some pid, some dt =>
    if reason = "" then (CreateResult.validationError, s)
    else if pid ∉ patients then (CreateResult.patientNotFound, s)
    else if dt.toMinutes ≤ now.toMinutes then (CreateResult.pastDateError, s)
    else if hasScheduledConflict s doctor dt then (CreateResult.conflictError, s)
    else
      match dbInsert s ⟨pid, doctor, dt, reason, Status.scheduled, notes, now, now⟩ with
      | some (s', id) => (CreateResult.created id, s')
      | none => (CreateResult.genericError, s)
  | _, _ => (CreateResult.validationError, s)

/-- Patient-side creation, `patients/views.py` `book_appointment` (POST
branch).  Required-field validation, then doctor lookup and a direct
`Appointment.objects.create` — there is no future-time check and no
conflict check; `Doctor.DoesNotExist` and `IntegrityError` are both caught
by `except Exception` and surfaced as the generic booking error.  The notes
field starts blank (model default). -/
def book_appointment (s : Store) (patient : Nat) (doctors : List Nat)
    (doctorId : Option Nat) (when : Option DateTime) (reason : String)
    (now : DateTime) : CreateResult × Store :=
  match doctorId, when with
  | some did, some dt =>
    if reason = "" then (CreateResult.validationError, s)
    else if did ∉ doctors then (CreateResult.genericError, s)
    else
      match dbInsert s ⟨patient, did, dt, reason, Status.scheduled, "", now, now⟩ with
      | some (s', id) => (CreateResult.created id, s')
      | none => (CreateResult.genericError, s)
  | _, _ => (CreateResult.validationError, s)

/-- Outcome of a status-mutation request (complete / cancel). -/
inductive MutResult where
  | success
  | invalidTransition
  | notFound
deriving DecidableEq, Repr

/-- Note concatenation used by both doctor-side mutations, e.g.
`appointment.notes + f"\n\nCompletion Notes: {x}" if appointment.notes else
f"Completion Notes: {x}"` (a Python conditional expression). -/
def appendNote (notes label note : String) : String :=
  if notes = "" then label ++ note else notes ++ "\n\n" ++ label ++ note

/-- The `get_object_or_404(Appointment, id=appointment_id, doctor=doctor)`
lookup. -/
def lookupByDoctor (s : Store) (id d : Nat) : Option Appointment :=
  (s.rows.find? fun r => decide (r.1 = id ∧ r.2.doctor = d)).map Prod.snd

/-- The `get_object_or_404(Appointment, id=appointment_id,
patient__user=request.user)` lookup of the patient-side cancel view. -/
def lookupByPatient (s : Store) (id p : Nat) : Option Appointment :=
  (s.rows.find? fun r => decide (r.1 = id ∧ r.2.patient = p)).map Prod.snd

/-- Saving a mutated row: every row with the given id is replaced by the
updated record (`appointment.save()`); ids and all other rows are kept. -/
def updateRow (rows : List (Nat × Appointment)) (id : Nat)
    (f : Appointment → Appointment) : List (Nat × Appointment) :=
  rows.map fun r => if r.1 = id then (r.1, f r.2) else r

/-- Doctor-side `complete_appointment` (POST branch), `doctors/views.py`
lines 743–756: only a scheduled appointment is completed; a non-empty
completion note is appended to `notes`; `updated_at` is refreshed by
`auto_now`; any other status leaves the store untouched and warns. -/
def complete_appointment (s : Store) (doctor id : Nat)
    (completion_notes : String) (now : DateTime) : MutResult × Store :=
  match lookupByDoctor s id doctor with
  | none => (MutResult.notFound, s)
  | some a =>
    if a.status = Status.scheduled then
      (MutResult.success,
       { s with rows := updateRow s.rows id fun b =>
          { b with
            status := Status.completed
            notes := if completion_notes = "" then b.notes
                     else appendNote b.notes "Completion Notes: " completion_notes
            updated_at := now } })
    else (MutResult.invalidTransition, s)

/-- Doctor-side `cancel_appointment` (POST branch), `doctors/views.py`
lines 778–791: same guard and note policy as completion, with the
cancellation-reason label. -/
def cancel_appointment (s : Store) (doctor id : Nat)
    (cancellation_reason : String) (now : DateTime) : MutResult × Store :=
  match lookupByDoctor s id doctor with
  | none => (MutResult.notFound, s)
  | some a =>
    if a.status = Status.scheduled then
      (MutResult.success,
       { s with rows := updateRow s.rows id fun b =>
          { b with
            status := Status.cancelled
            notes := if cancellation_reason = "" then b.notes
                     else appendNote b.notes "Cancellation Reason: " cancellation_reason
            updated_at := now } })
    else (MutResult.invalidTransition, s)

/-- Patient-side `cancel_appointment`, `patients/views.py` lines 267–279:
the status is set to cancelled with NO check of the current status; a
missing row is surfaced as an error with no write. -/
def patient_cancel_appointment (s : Store) (patient id : Nat)
    (now : DateTime) : MutResult × Store :=
  match lookupByPatient s id patient with
  | none => (MutResult.notFound, s)
  | some _ =>
    (MutResult.success,
     { s with rows := updateRow s.rows id fun b =>
        { b with status := Status.cancelled, updated_at := now } })

/-- All appointments of one doctor, as the dashboard queries list them. -/
def doctorRows (s : Store) (d : Nat) : List Appointment :=
  (s.rows.filter fun r => decide (r.2.doctor = d)).map Prod.snd

/-- Dashboard count `total_appointments_today`: appointments of the doctor
whose date equals today (`appointment_date__date=today`). -/
def total_appointments_today (s : Store) (d : Nat) (today : Int) : Nat :=
  (doctorRows s d).countP fun a => decide (a.appointment_date.day = today)

/-- Dashboard count `total_appointments_week`: date in the inclusive range
`[today, today + 7]` (`appointment_date__date__range`). -/
def total_appointments_week (s : Store) (d : Nat) (today : Int) : Nat :=
  (doctorRows s d).countP fun a =>
    decide (today ≤ a.appointment_date.day ∧ a.appointment_date.day ≤ today + 7)

/-- Dashboard count `total_appointments_month`: date in the inclusive range
`[today, today + 30]`. -/
def total_appointments_month (s : Store) (d : Nat) (today : Int) : Nat :=
  (doctorRows s d).countP fun a =>
    decide (today ≤ a.appointment_date.day ∧ a.appointment_date.day ≤ today + 30)

/-- Python `date.weekday()` under the day-ordinal convention (day 1 of year 1
is a Monday): Monday = 0 … Sunday = 6. -/
def pyWeekday (d : Int) : Int := (d - 1) % 7

/-- Number of days in a month of the proleptic Gregorian calendar, as
`datetime.date` validates them. -/
def daysInMonth (y m : Nat) : Nat :=
  if m = 2 then
    if y % 4 = 0 ∧ (y % 100 ≠ 0 ∨ y % 400 = 0) then 29 else 28
  else if m = 4 ∨ m = 6 ∨ m = 9 ∨ m = 11 then 30
  else 31

/-- Days in the months strictly before month `m` of year `y`. -/
def daysBeforeMonth (y m : Nat) : Nat :=
  (List.range m).foldl (fun acc k => if k = 0 then acc else acc + daysInMonth y k) 0

/-- Python `date(y, m, d).toordinal()`: days since 0000-12-31 in the
proleptic Gregorian calendar. -/
def toOrdinal (y m d : Nat) : Int :=
  (365 * ((y : Int) - 1) + ((y : Int) - 1) / 4 - ((y : Int) - 1) / 100
    + ((y : Int) - 1) / 400) + (daysBeforeMonth y m : Int) + (d : Int)

/-- Splitting of the character list of the date string at every dash. -/
def splitOnDash : List Char → List (List Char)
  | [] => [[]]
  | c :: cs =>
    if c = '-' then [] :: splitOnDash cs
    else
      match splitOnDash cs with
      | [] => [[c]]
      | g :: gs => (c :: g) :: gs

/-- Numeric value of a digit string. -/
def digitsToNat (l : List Char) : Nat :=
  l.foldl (fun acc c => acc * 10 + (c.toNat - '0'.toNat)) 0

/-- Parse of one numeric field of the date string. -/
def parseNatField (s : List Char) : Option Nat :=
  if s ≠ [] ∧ s.all (fun c => c.isDigit) then some (digitsToNat s) else none

/-- The `datetime.strptime(date_str, '%Y-%m-%d').date()` call of
`doctor_schedule`: three dash-separated numeric fields forming a valid
calendar date, returned as a day ordinal; anything else raises
`ValueError` (here: `none`). -/
def parseDateISO (s : String) : Option Int :=
  match (splitOnDash s.data).map parseNatField with
  | [some y, some m, some d] =>
    if 1 ≤ y ∧ y ≤ 9999 ∧ 1 ≤ m ∧ m ≤ 12 ∧ 1 ≤ d ∧ d ≤ daysInMonth y m then
      some (toOrdinal y m d)
    else none
  | _ => none

/-- Reference-date selection of `doctor_schedule`, `doctors/views.py` lines
489–497: the `date` query parameter when present and parsable, today
otherwise. -/
def scheduleBaseDate (dateParam : Option String) (today : Int) : Int :=
  match dateParam with
  | none => today
  | some str =>
    match parseDateISO str with
    | some d => d
    | none => today

/-- Week normalisation `start_date = base_date - timedelta(days=base_date.weekday())`. -/
def weekStart (base : Int) : Int := base - pyWeekday base

/-- The `end_date = start_date + timedelta(days=6)` boundary. -/
def weekEnd (start : Int) : Int := start + 6

/-- The `prev_week = start_date - timedelta(days=7)` boundary. -/
def prevWeek (start : Int) : Int := start - 7

/-- The `next_week = start_date + timedelta(days=7)` boundary. -/
def nextWeek (start : Int) : Int := start + 7

/-- The week query of `doctor_schedule`: the doctor's appointments with
`appointment_date__date__range=[start_date, end_date]` (inclusive ends). -/
def weekAppointments (s : Store) (d : Nat) (start : Int) : List (Nat × Appointment) :=
  s.rows.filter fun r =>
    decide (r.2.doctor = d ∧ start ≤ r.2.appointment_date.day ∧
      r.2.appointment_date.day ≤ start + 6)

/-- One cell `schedule_grid[i][hour]` of the week grid: the week
appointments falling on day `start + i` and starting in hour `hour`.  The
view materialises the cells for `i` in 0–6 and `hour` in 9–17. -/
def scheduleCell (s : Store) (d : Nat) (start : Int) (i : Nat) (hour : Nat) :
    List (Nat × Appointment) :=
  (weekAppointments s d start).filter fun r =>
    decide (r.2.appointment_date.day = start + (i : Int) ∧
      r.2.appointment_date.hour = hour)

/-- One step of the appointment subsystem: any of the five mutating
requests, run with arbitrary request data. -/
inductive Step : Store → Store → Prop where
  | create (s : Store) (d : Nat) (ps : List Nat) (pid : Option Nat)
      (w : Option DateTime) (reason notes : String) (now : DateTime) :
      Step s (create_appointment s d ps pid w reason notes now).2
  | book (s : Store) (p : Nat) (ds : List Nat) (did : Option Nat)
      (w : Option DateTime) (reason : String) (now : DateTime) :
      Step s (book_appointment s p ds did w reason now).2
  | complete (s : Store) (d id : Nat) (note : String) (now : DateTime) :
      Step s (complete_appointment s d id note now).2
  | cancel (s : Store) (d id : Nat) (reason : String) (now : DateTime) :
      Step s (cancel_appointment s d id reason now).2
  | patientCancel (s : Store) (p id : Nat) (now : DateTime) :
      Step s (patient_cancel_appointment s p id now).2

/-- Stores reachable from the empty table by the five requests. -/
inductive Reachable : Store → Prop where
  | empty : Reachable Store.empty
  | step {s s' : Store} : Reachable s → Step s s' → Reachable s'

/-- The uniqueness invariant: no two rows carry the same
(doctor, appointment_date) pair. -/
def UniquePairs (s : Store) : Prop :=
  s.rows.Pairwise fun r r' =>
    ¬(r.2.doctor = r'.2.doctor ∧ r.2.appointment_date = r'.2.appointment_date)

/-- Frame of an appointment row: the fields that complete/cancel must not
touch (everything but status, notes and `updated_at`). -/
def sameFrame (a b : Appointment) : Prop :=
  a.patient = b.patient ∧ a.doctor = b.doctor ∧
  a.appointment_date = b.appointment_date ∧ a.reason = b.reason ∧
  a.created_at = b.created_at

lemma sameFrame_refl (a : Appointment) : sameFrame a a :=
  ⟨rfl, rfl, rfl, rfl, rfl⟩

/-- Row-frame relation between two stores read off row by row. -/
def RowsFramed (l l' : List (Nat × Appointment)) : Prop :=
  List.Forall₂ (fun r r' => r.1 = r'.1 ∧ sameFrame r.2 r'.2) l l'

lemma rowsFramed_refl (l : List (Nat × Appointment)) : RowsFramed l l :=
  List.forall₂_same.2 fun _ _ => ⟨rfl, sameFrame_refl _⟩

lemma rowsFramed_updateRow (l : List (Nat × Appointment)) (id : Nat)
    (f : Appointment → Appointment) (hf : ∀ a, sameFrame a (f a)) :
    RowsFramed l (updateRow l id f) := by
  induction l with
  | nil => exact List.Forall₂.nil
  | cons a t ih =>
    show List.Forall₂ _ (a :: t)
      ((if a.1 = id then (a.1, f a.2) else a) :: updateRow t id f)
    refine List.Forall₂.cons ?_ ih
    by_cases h : a.1 = id
    · rw [if_pos h]
      exact ⟨rfl, hf a.2⟩
    · rw [if_neg h]
      exact ⟨rfl, sameFrame_refl a.2⟩

lemma str_empty_append (s : String) : "" ++ s = s := by
  cases s
  rfl

lemma str_append_empty (s : String) : s ++ "" = s := by
  cases s with
  | mk l =>
    show String.mk (l ++ []) = String.mk l
    rw [List.append_nil]

lemma str_append_assoc (a b c : String) : a ++ b ++ c = a ++ (b ++ c) := by
  cases a with
  | mk la =>
    cases b with
    | mk lb =>
      cases c with
      | mk lc =>
        show String.mk (la ++ lb ++ lc) = String.mk (la ++ (lb ++ lc))
        rw [List.append_assoc]

lemma find?_map_comm {α : Type} (g : α → α) (p : α → Bool)
    (h : ∀ a, p (g a) = p a) : ∀ l : List α,
    (l.map g).find? p = (l.find? p).map g := by
  intro l
  induction l with
  | nil => rfl
  | cons a t ih =>
    by_cases hpa : p a = true
    · rw [List.map_cons, List.find?_cons_of_pos _ (by rw [h a]; exact hpa),
        List.find?_cons_of_pos _ hpa, Option.map_some']
    · rw [List.map_cons, List.find?_cons_of_neg _ (by rw [h a]; simpa using hpa),
        List.find?_cons_of_neg _ (by simpa using hpa), ih]

lemma lookupByDoctor_updateRow (s : Store) (id d : Nat)
    (f : Appointment → Appointment) (hf : ∀ a, (f a).doctor = a.doctor) :
    lookupByDoctor ⟨s.nextId, updateRow s.rows id f⟩ id d
      = (lookupByDoctor s id d).map f := by
  have hcomm : ∀ r : Nat × Appointment,
      (fun r : Nat × Appointment => decide (r.1 = id ∧ r.2.doctor = d))
          ((fun r : Nat × Appointment => if r.1 = id then (r.1, f r.2) else r) r)
        = (fun r : Nat × Appointment => decide (r.1 = id ∧ r.2.doctor = d)) r := by
    intro r
    by_cases hid : r.1 = id
    · simp [hid, hf]
    · simp [hid]
  unfold lookupByDoctor
  show ((updateRow s.rows id f).find? _).map Prod.snd = _
  unfold updateRow
  rw [find?_map_comm _ _ hcomm]
  cases hfind : s.rows.find? (fun r => decide (r.1 = id ∧ r.2.doctor = d)) with
  | none => rfl
  | some r0 =>
    have hp := List.find?_some hfind
    simp only [decide_eq_true_eq] at hp
    simp [hp.1]

lemma lookupByPatient_updateRow (s : Store) (id p : Nat)
    (f : Appointment → Appointment) (hf : ∀ a, (f a).patient = a.patient) :
    lookupByPatient ⟨s.nextId, updateRow s.rows id f⟩ id p
      = (lookupByPatient s id p).map f := by
  have hcomm : ∀ r : Nat × Appointment,
      (fun r : Nat × Appointment => decide (r.1 = id ∧ r.2.patient = p))
          ((fun r : Nat × Appointment => if r.1 = id then (r.1, f r.2) else r) r)
        = (fun r : Nat × Appointment => decide (r.1 = id ∧ r.2.patient = p)) r := by
    intro r
    by_cases hid : r.1 = id
    · simp [hid, hf]
    · simp [hid]
  unfold lookupByPatient
  show ((updateRow s.rows id f).find? _).map Prod.snd = _
  unfold updateRow
  rw [find?_map_comm _ _ hcomm]
  cases hfind : s.rows.find? (fun r => decide (r.1 = id ∧ r.2.patient = p)) with
  | none => rfl
  | some r0 =>
    have hp := List.find?_some hfind
    simp only [decide_eq_true_eq] at hp
    simp [hp.1]

/-- C8: for every store, doctor and reference day, the dashboard counts over
the expanding inclusive windows are monotone: the today count is at most the
7-day-window count, which is at most the 30-day-window count. -/
theorem dashboard_counts_monotone (s : Store) (d : Nat) (today : Int) :
    total_appointments_today s d today ≤ total_appointments_week s d today ∧
    total_appointments_week s d today ≤ total_appointments_month s d today := by
  constructor
  · apply List.countP_mono_left
    intro a _ h
    simp only [decide_eq_true_eq] at h ⊢
    omega
  · apply List.countP_mono_left
    intro a _ h
    simp only [decide_eq_true_eq] at h ⊢
    omega

/-- C9: the schedule view's reference date defaults to today when the date
parameter is absent or unparsable; the week start is the Monday of the
calendar week containing the reference date (weekday 0, with the reference
date within the following six days); and the previous/next week boundaries
are exactly seven days before/after the week start. -/
theorem schedule_week_normalisation (dateParam : Option String) (today : Int) :
    (dateParam = none → scheduleBaseDate dateParam today = today) ∧
    (∀ str, dateParam = some str → parseDateISO str = none →
      scheduleBaseDate dateParam today = today) ∧
    pyWeekday (weekStart (scheduleBaseDate dateParam today)) = 0 ∧
    weekStart (scheduleBaseDate dateParam today) ≤ scheduleBaseDate dateParam today ∧
    scheduleBaseDate dateParam today ≤ weekStart (scheduleBaseDate dateParam today) + 6 ∧
    prevWeek (weekStart (scheduleBaseDate dateParam today))
      = weekStart (scheduleBaseDate dateParam today) - 7 ∧
    nextWeek (weekStart (scheduleBaseDate dateParam today))
      = weekStart (scheduleBaseDate dateParam today) + 7 := by
  refine ⟨fun h => by subst h; rfl, fun str h hp => by rw [h]; simp [scheduleBaseDate, hp],
    ?_, ?_, ?_, rfl, rfl⟩
  all_goals
    unfold weekStart pyWeekday
    omega

/-- Witness for C9 at concrete inputs: an unparsable parameter falls back to
today, and the week start of 2026-10-15 (a Thursday, ordinal 739904) has
weekday Monday. -/
theorem schedule_week_normalisation_witness :
    scheduleBaseDate (some "garbage") 739901 = 739901 ∧
    pyWeekday (weekStart (scheduleBaseDate (some "2026-10-15") 0)) = 0 :=
  ⟨(schedule_week_normalisation (some "garbage") 739901).2.1 "garbage" rfl (by decide),
   (schedule_week_normalisation (some "2026-10-15") 0).2.2.1⟩

/-- C10: complete and cancel (both doctor-side operations and the
patient-side cancel) leave every row's id, patient, doctor,
appointment_date, reason and created_at unchanged, row for row. -/
theorem mutation_frame (s : Store) (d p id : Nat) (note reason : String)
    (now : DateTime) :
    RowsFramed s.rows (complete_appointment s d id note now).2.rows ∧
    RowsFramed s.rows (cancel_appointment s d id reason now).2.rows ∧
    RowsFramed s.rows (patient_cancel_appointment s p id now).2.rows := by
  refine ⟨?_, ?_, ?_⟩
  · unfold complete_appointment
    cases hL : lookupByDoctor s id d with
    | none => exact rowsFramed_refl _
    | some a =>
      by_cases hs : a.status = Status.scheduled
      · simp only [hs, if_pos]
        exact rowsFramed_updateRow _ _ _ fun b => ⟨rfl, rfl, rfl, rfl, rfl⟩
      · simp only [if_neg hs]
        exact rowsFramed_refl _
  · unfold cancel_appointment
    cases hL : lookupByDoctor s id d with
    | none => exact rowsFramed_refl _
    | some a =>
      by_cases hs : a.status = Status.scheduled
      · simp only [hs, if_pos]
        exact rowsFramed_updateRow _ _ _ fun b => ⟨rfl, rfl, rfl, rfl, rfl⟩
      · simp only [if_neg hs]
        exact rowsFramed_refl _
  · unfold patient_cancel_appointment
    cases hL : lookupByPatient s id p with
    | none => exact rowsFramed_refl _
    | some a =>
      exact rowsFramed_updateRow s.rows id
        (fun b => { b with status := Status.cancelled, updated_at := now })
        (fun b => ⟨rfl, rfl, rfl, rfl, rfl⟩)

lemma complete_appointment_eq (s : Store) (d id : Nat) (note : String)
    (now : DateTime) (a : Appointment) (hL : lookupByDoctor s id d = some a) :
    complete_appointment s d id note now =
      if a.status = Status.scheduled then
        (MutResult.success, { s with rows := updateRow s.rows id fun b =>
          { b with
            status := Status.completed
            notes := if note = "" then b.notes
                     else appendNote b.notes "Completion Notes: " note
            updated_at := now } })
      else (MutResult.invalidTransition, s) := by
  unfold complete_appointment
  rw [hL]

lemma cancel_appointment_eq (s : Store) (d id : Nat) (reason : String)
    (now : DateTime) (a : Appointment) (hL : lookupByDoctor s id d = some a) :
    cancel_appointment s d id reason now =
      if a.status = Status.scheduled then
        (MutResult.success, { s with rows := updateRow s.rows id fun b =>
          { b with
            status := Status.cancelled
            notes := if reason = "" then b.notes
                     else appendNote b.notes "Cancellation Reason: " reason
            updated_at := now } })
      else (MutResult.invalidTransition, s) := by
  unfold cancel_appointment
  rw [hL]

lemma patient_cancel_eq (s : Store) (p id : Nat) (now : DateTime)
    (a : Appointment) (hL : lookupByPatient s id p = some a) :
    patient_cancel_appointment s p id now =
      (MutResult.success, { s with rows := updateRow s.rows id fun b =>
        { b with status := Status.cancelled, updated_at := now } }) := by
  unfold patient_cancel_appointment
  rw [hL]

lemma appendNote_suffix (notes label note : String) :
    ∃ t, appendNote notes label note = notes ++ t := by
  by_cases hmt : notes = ""
  · refine ⟨label ++ note, ?_⟩
    rw [appendNote, if_pos hmt, hmt, str_empty_append]
  · refine ⟨"\n\n" ++ label ++ note, ?_⟩
    rw [appendNote, if_neg hmt, str_append_assoc notes "\n\n" label,
      str_append_assoc notes ("\n\n" ++ label) note]

/-- C7: every successful complete or cancel only appends to the notes field
(the prior content is a prefix of the new content, witnessed by an explicit
suffix), and with no supplied note or reason the notes are unchanged; the
patient-side cancel never touches notes at all. -/
theorem notes_append_only (s : Store) (d p id : Nat) (note : String)
    (now : DateTime) (a : Appointment) :
    (lookupByDoctor s id d = some a →
      ((complete_appointment s d id note now).1 = MutResult.success →
        ∃ a', lookupByDoctor (complete_appointment s d id note now).2 id d = some a' ∧
          (∃ t, a'.notes = a.notes ++ t) ∧ (note = "" → a'.notes = a.notes)) ∧
      ((cancel_appointment s d id note now).1 = MutResult.success →
        ∃ a', lookupByDoctor (cancel_appointment s d id note now).2 id d = some a' ∧
          (∃ t, a'.notes = a.notes ++ t) ∧ (note = "" → a'.notes = a.notes))) ∧
    (lookupByPatient s id p = some a →
      (patient_cancel_appointment s p id now).1 = MutResult.success ∧
      ∃ a', lookupByPatient (patient_cancel_appointment s p id now).2 id p = some a' ∧
        a'.notes = a.notes) := by
  refine ⟨fun hL => ⟨?_, ?_⟩, fun hL => ?_⟩
  · intro hsucc
    rw [complete_appointment_eq s d id note now a hL] at hsucc ⊢
    by_cases hs : a.status = Status.scheduled
    · rw [if_pos hs]
      have hlook := lookupByDoctor_updateRow s id d
        (fun b =>
          { b with
            status := Status.completed
            notes := if note = "" then b.notes
                     else appendNote b.notes "Completion Notes: " note
            updated_at := now })
        (fun b => rfl)
      rw [hL, Option.map_some'] at hlook
      refine ⟨_, hlook, ?_, ?_⟩
      · by_cases hn : note = ""
        · exact ⟨"", by rw [if_pos hn, str_append_empty]⟩
        · rw [if_neg hn]
          exact appendNote_suffix a.notes "Completion Notes: " note
      · intro hn
        show (if note = "" then a.notes else _) = a.notes
        rw [if_pos hn]
    · rw [if_neg hs] at hsucc
      exact MutResult.noConfusion hsucc
  · intro hsucc
    rw [cancel_appointment_eq s d id note now a hL] at hsucc ⊢
    by_cases hs : a.status = Status.scheduled
    · rw [if_pos hs]
      have hlook := lookupByDoctor_updateRow s id d
        (fun b =>
          { b with
            status := Status.cancelled
            notes := if note = "" then b.notes
                     else appendNote b.notes "Cancellation Reason: " note
            updated_at := now })
        (fun b => rfl)
      rw [hL, Option.map_some'] at hlook
      refine ⟨_, hlook, ?_, ?_⟩
      · by_cases hn : note = ""
        · exact ⟨"", by rw [if_pos hn, str_append_empty]⟩
        · rw [if_neg hn]
          exact appendNote_suffix a.notes "Cancellation Reason: " note
      · intro hn
        show (if note = "" then a.notes else _) = a.notes
        rw [if_pos hn]
    · rw [if_neg hs] at hsucc
      exact MutResult.noConfusion hsucc
  · rw [patient_cancel_eq s p id now a hL]
    have hlook := lookupByPatient_updateRow s id p
      (fun b => { b with status := Status.cancelled, updated_at := now })
      (fun b => rfl)
    rw [hL, Option.map_some'] at hlook
    exact ⟨rfl, _, hlook, rfl⟩

/-- A concrete scheduled appointment: patient 2 with doctor 1 at day 10,
09:00, with pre-existing notes. -/
def apptSched : Appointment :=
  ⟨2, 1, ⟨10, 9, 0⟩, "flu", Status.scheduled, "seen before", ⟨5, 8, 0⟩, ⟨5, 8, 0⟩⟩

/-- A store holding only `apptSched` under row id 0. -/
def storeSched : Store := ⟨1, [(0, apptSched)]⟩

/-- Witness for C7 at the concrete store: completing row 0 with a note
yields a notes field extending the prior one. -/
theorem notes_append_only_witness :
    ∃ a', lookupByDoctor (complete_appointment storeSched 1 0 "all good" ⟨10, 10, 0⟩).2 0 1
        = some a' ∧
      (∃ t, a'.notes = (apptSched).notes ++ t) ∧
      ("all good" = "" → a'.notes = (apptSched).notes) :=
  ((notes_append_only storeSched 1 2 0 "all good" ⟨10, 10, 0⟩ apptSched).1
    (by decide)).1 (by decide)

/-- C4: completing a scheduled appointment succeeds and sets the status to
completed; a second completion attempt then fails with the
invalid-transition warning and leaves the store unchanged, and completing
any non-scheduled appointment fails the same way with the store unchanged. -/
theorem complete_transition (s : Store) (d id : Nat) (note note2 : String)
    (now now2 : DateTime) (a : Appointment)
    (hL : lookupByDoctor s id d = some a) :
    (a.status = Status.scheduled →
      (complete_appointment s d id note now).1 = MutResult.success ∧
      (∃ a', lookupByDoctor (complete_appointment s d id note now).2 id d = some a' ∧
        a'.status = Status.completed) ∧
      complete_appointment (complete_appointment s d id note now).2 d id note2 now2
        = (MutResult.invalidTransition, (complete_appointment s d id note now).2)) ∧
    (a.status ≠ Status.scheduled →
      complete_appointment s d id note now = (MutResult.invalidTransition, s)) := by
  constructor
  · intro hs
    rw [complete_appointment_eq s d id note now a hL, if_pos hs]
    have hL' := lookupByDoctor_updateRow s id d
      (fun b =>
        { b with
          status := Status.completed
          notes := if note = "" then b.notes
                   else appendNote b.notes "Completion Notes: " note
          updated_at := now })
      (fun b => rfl)
    rw [hL, Option.map_some'] at hL' 
    refine ⟨rfl, ⟨_, hL', rfl⟩, ?_⟩
    rw [complete_appointment_eq _ d id note2 now2 _ hL']
    rw [if_neg (by exact fun h => Status.noConfusion h)]
  · intro hs
    rw [complete_appointment_eq s d id note now a hL, if_neg hs]

/-- Witness for C4: completing the concrete scheduled appointment succeeds,
flips the status to completed, and a repeat completion is rejected with the
store unchanged. -/
theorem complete_transition_witness :
    (complete_appointment storeSched 1 0 "" ⟨10, 10, 0⟩).1 = MutResult.success ∧
    (∃ a', lookupByDoctor (complete_appointment storeSched 1 0 "" ⟨10, 10, 0⟩).2 0 1
        = some a' ∧ a'.status = Status.completed) ∧
    complete_appointment (complete_appointment storeSched 1 0 "" ⟨10, 10, 0⟩).2 1 0 "x" ⟨11, 8, 0⟩
      = (MutResult.invalidTransition, (complete_appointment storeSched 1 0 "" ⟨10, 10, 0⟩).2) :=
  (complete_transition storeSched 1 0 "" "x" ⟨10, 10, 0⟩ ⟨11, 8, 0⟩ apptSched
    (by decide)).1 (by decide)

/-- Amended C3: the doctor-side cancel succeeds exactly when the appointment
is scheduled and fails with the invalid-transition warning (store unchanged)
otherwise; the patient-side cancel sets the status to cancelled
unconditionally, whatever the current status. -/
theorem cancel_transition_amended (s : Store) (d p id : Nat) (reason : String)
    (now : DateTime) (a : Appointment) :
    (lookupByDoctor s id d = some a →
      ((cancel_appointment s d id reason now).1 = MutResult.success ↔
        a.status = Status.scheduled) ∧
      (a.status ≠ Status.scheduled →
        cancel_appointment s d id reason now = (MutResult.invalidTransition, s)) ∧
      (a.status = Status.scheduled →
        ∃ a', lookupByDoctor (cancel_appointment s d id reason now).2 id d = some a' ∧
          a'.status = Status.cancelled)) ∧
    (lookupByPatient s id p = some a →
      (patient_cancel_appointment s p id now).1 = MutResult.success ∧
      ∃ a', lookupByPatient (patient_cancel_appointment s p id now).2 id p = some a' ∧
        a'.status = Status.cancelled) := by
  constructor
  · intro hL
    rw [cancel_appointment_eq s d id reason now a hL]
    refine ⟨⟨?_, ?_⟩, ?_, ?_⟩
    · intro hsucc
      by_cases hs : a.status = Status.scheduled
      · exact hs
      · rw [if_neg hs] at hsucc
        exact MutResult.noConfusion hsucc
    · intro hs
      rw [if_pos hs]
    · intro hs
      rw [if_neg hs]
    · intro hs
      rw [if_pos hs]
      have hlook := lookupByDoctor_updateRow s id d
        (fun b =>
          { b with
            status := Status.cancelled
            notes := if reason = "" then b.notes
                     else appendNote b.notes "Cancellation Reason: " reason
            updated_at := now })
        (fun b => rfl)
      rw [hL, Option.map_some'] at hlook
      exact ⟨_, hlook, rfl⟩
  · intro hL
    rw [patient_cancel_eq s p id now a hL]
    have hlook := lookupByPatient_updateRow s id p
      (fun b => { b with status := Status.cancelled, updated_at := now })
      (fun b => rfl)
    rw [hL, Option.map_some'] at hlook
    exact ⟨rfl, _, hlook, rfl⟩

/-- A concrete completed appointment, stored under row id 0 below. -/
def apptDone : Appointment :=
  ⟨2, 1, ⟨10, 9, 0⟩, "flu", Status.completed, "", ⟨5, 8, 0⟩, ⟨5, 8, 0⟩⟩

/-- Store containing only the completed appointment. -/
def storeDone : Store := ⟨1, [(0, apptDone)]⟩

/-- Counterexample to C3 as stated: the patient-side cancel succeeds on a
completed appointment and flips its status to cancelled, instead of failing
with an invalid-transition error and leaving the state unchanged. -/
theorem cancel_completed_succeeds :
    apptDone.status = Status.completed ∧
    (patient_cancel_appointment storeDone 2 0 ⟨11, 8, 0⟩).1 = MutResult.success ∧
    (patient_cancel_appointment storeDone 2 0 ⟨11, 8, 0⟩).1 ≠ MutResult.invalidTransition ∧
    lookupByPatient (patient_cancel_appointment storeDone 2 0 ⟨11, 8, 0⟩).2 0 2
      = some { apptDone with status := Status.cancelled, updated_at := ⟨11, 8, 0⟩ } := by
  decide

/-- Witness for the amended C3 at a concrete input: the doctor-side cancel
of the completed appointment is rejected with the store unchanged. -/
theorem cancel_transition_amended_witness :
    cancel_appointment storeDone 1 0 "busy" ⟨11, 8, 0⟩
      = (MutResult.invalidTransition, storeDone) :=
  ((cancel_transition_amended storeDone 1 2 0 "busy" ⟨11, 8, 0⟩ apptDone).1
    (by decide)).2.1 (by decide)

lemma scheduledConflict_hasPair (s : Store) (d : Nat) (t : DateTime) :
    hasScheduledConflict s d t = true → Store.hasPair s d t = true := by
  simp only [hasScheduledConflict, Store.hasPair, List.any_eq_true, decide_eq_true_eq]
  rintro ⟨r, hr, h1, h2, _⟩
  exact ⟨r, hr, h1, h2⟩

lemma create_success_eq (s : Store) (d pid : Nat) (patients : List Nat)
    (dt now : DateTime) (reason notes : String)
    (hr : reason ≠ "") (hp : pid ∈ patients)
    (hfut : now.toMinutes < dt.toMinutes) (hfresh : s.hasPair d dt = false) :
    create_appointment s d patients (some pid) (some dt) reason notes now
      = (CreateResult.created s.nextId,
         ⟨s.nextId + 1,
          s.rows ++ [(s.nextId, ⟨pid, d, dt, reason, Status.scheduled, notes, now, now⟩)]⟩) := by
  have hconf : hasScheduledConflict s d dt = false := by
    cases h : hasScheduledConflict s d dt with
    | false => rfl
    | true => rw [scheduledConflict_hasPair s d dt h] at hfresh; exact absurd hfresh (by decide)
  have hnp : ¬ dt.toMinutes ≤ now.toMinutes := by omega
  simp [create_appointment, hr, not_not_intro hp, hnp, hconf, dbInsert, hfresh]

lemma book_success_eq (s : Store) (d pid : Nat) (doctors : List Nat)
    (dt now : DateTime) (reason : String)
    (hr : reason ≠ "") (hd : d ∈ doctors) (hfresh : s.hasPair d dt = false) :
    book_appointment s pid doctors (some d) (some dt) reason now
      = (CreateResult.created s.nextId,
         ⟨s.nextId + 1,
          s.rows ++ [(s.nextId, ⟨pid, d, dt, reason, Status.scheduled, "", now, now⟩)]⟩) := by
  simp [book_appointment, hr, not_not_intro hd, dbInsert, hfresh]

lemma insert_occupies_slot (rows : List (Nat × Appointment)) (m n pid d : Nat)
    (dt now : DateTime) (reason notes : String) :
    hasScheduledConflict
      ⟨m, rows ++ [(n, ⟨pid, d, dt, reason, Status.scheduled, notes, now, now⟩)]⟩ d dt = true ∧
    Store.hasPair
      ⟨m, rows ++ [(n, ⟨pid, d, dt, reason, Status.scheduled, notes, now, now⟩)]⟩ d dt = true := by
  constructor <;> simp [hasScheduledConflict, Store.hasPair, List.any_append]

lemma second_request_fails (s' : Store) (d pid : Nat)
    (patients doctors : List Nat) (dt now : DateTime) (reason notes : String)
    (hr : reason ≠ "") (hp : pid ∈ patients) (hd : d ∈ doctors)
    (hfut : now.toMinutes < dt.toMinutes)
    (hconf : hasScheduledConflict s' d dt = true)
    (hpair : s'.hasPair d dt = true) :
    create_appointment s' d patients (some pid) (some dt) reason notes now
      = (CreateResult.conflictError, s') ∧
    book_appointment s' pid doctors (some d) (some dt) reason now
      = (CreateResult.genericError, s') := by
  have hnp : ¬ dt.toMinutes ≤ now.toMinutes := by omega
  constructor
  · simp [create_appointment, hr, not_not_intro hp, hnp, hconf]
  · simp [book_appointment, hr, not_not_intro hd, dbInsert, hpair]

/-- Amended C1: with valid inputs and a free slot, the first creation
request on either path succeeds; a second request for the same
(doctor, timestamp) slot then fails with no second row persisted — as a
ConflictError from the conflict check on the doctor-side path, but as a
storage uniqueness violation surfaced as a generic error on the
patient-side booking path. -/
theorem double_booking_amended (s : Store) (d pid : Nat)
    (patients doctors : List Nat) (dt now : DateTime) (reason notes : String)
    (hr : reason ≠ "") (hp : pid ∈ patients) (hd : d ∈ doctors)
    (hfut : now.toMinutes < dt.toMinutes) (hfresh : s.hasPair d dt = false) :
    (create_appointment s d patients (some pid) (some dt) reason notes now).1
        = CreateResult.created s.nextId ∧
    (book_appointment s pid doctors (some d) (some dt) reason now).1
        = CreateResult.created s.nextId ∧
    (∀ s', s' = (create_appointment s d patients (some pid) (some dt) reason notes now).2 →
      create_appointment s' d patients (some pid) (some dt) reason notes now
          = (CreateResult.conflictError, s') ∧
      book_appointment s' pid doctors (some d) (some dt) reason now
          = (CreateResult.genericError, s')) ∧
    (∀ s', s' = (book_appointment s pid doctors (some d) (some dt) reason now).2 →
      create_appointment s' d patients (some pid) (some dt) reason notes now
          = (CreateResult.conflictError, s') ∧
      book_appointment s' pid doctors (some d) (some dt) reason now
          = (CreateResult.genericError, s')) := by
  have h1 := create_success_eq s d pid patients dt now reason notes hr hp hfut hfresh
  have h2 := book_success_eq s d pid doctors dt now reason hr hd hfresh
  refine ⟨by rw [h1], by rw [h2], ?_, ?_⟩
  · intro s' hs'
    rw [h1] at hs'
    subst hs'
    have hocc := insert_occupies_slot s.rows (s.nextId + 1) s.nextId pid d dt now reason notes
    exact second_request_fails _ d pid patients doctors dt now reason notes
      hr hp hd hfut hocc.1 hocc.2
  · intro s' hs'
    rw [h2] at hs'
    subst hs'
    have hocc := insert_occupies_slot s.rows (s.nextId + 1) s.nextId pid d dt now reason ""
    exact second_request_fails _ d pid patients doctors dt now reason notes
      hr hp hd hfut hocc.1 hocc.2

/-- Counterexample to C1 as stated: two sequential patient-side bookings of
the same (doctor, timestamp) slot — the first succeeds, the second fails,
but with the generic booking error (the caught storage violation), not with
a conflict error. -/
theorem double_booking_generic_error :
    (book_appointment Store.empty 1 [2] (some 2) (some ⟨10, 9, 0⟩) "flu" ⟨5, 8, 0⟩).1
        = CreateResult.created 0 ∧
    (book_appointment
        (book_appointment Store.empty 1 [2] (some 2) (some ⟨10, 9, 0⟩) "flu" ⟨5, 8, 0⟩).2
        1 [2] (some 2) (some ⟨10, 9, 0⟩) "flu" ⟨5, 8, 0⟩)
      = (CreateResult.genericError,
         (book_appointment Store.empty 1 [2] (some 2) (some ⟨10, 9, 0⟩) "flu" ⟨5, 8, 0⟩).2) ∧
    (book_appointment
        (book_appointment Store.empty 1 [2] (some 2) (some ⟨10, 9, 0⟩) "flu" ⟨5, 8, 0⟩).2
        1 [2] (some 2) (some ⟨10, 9, 0⟩) "flu" ⟨5, 8, 0⟩).1
      ≠ CreateResult.conflictError := by
  decide

/-- Witness for the amended C1 at concrete inputs: doctor-side first
request succeeds, the repeated doctor-side request reports the conflict
error with the store unchanged. -/
theorem double_booking_amended_witness :
    (create_appointment Store.empty 2 [1] (some 1) (some ⟨10, 9, 0⟩) "flu" "" ⟨5, 8, 0⟩).1
        = CreateResult.created 0 ∧
    create_appointment
        (create_appointment Store.empty 2 [1] (some 1) (some ⟨10, 9, 0⟩) "flu" "" ⟨5, 8, 0⟩).2
        2 [1] (some 1) (some ⟨10, 9, 0⟩) "flu" "" ⟨5, 8, 0⟩
      = (CreateResult.conflictError,
         (create_appointment Store.empty 2 [1] (some 1) (some ⟨10, 9, 0⟩) "flu" "" ⟨5, 8, 0⟩).2) := by
  have h := double_booking_amended Store.empty 2 1 [1] [2] ⟨10, 9, 0⟩ ⟨5, 8, 0⟩ "flu" ""
    (by decide) (by decide) (by decide) (by decide) (by decide)
  exact ⟨h.1, (h.2.2.1 _ rfl).1⟩

/-- Amended C5: a past-or-present timestamp is rejected before any write on
the doctor-side creation path, but the patient-side booking path performs no
future-time check: with otherwise valid inputs it persists an appointment
row for the past timestamp. -/
theorem past_rejection_amended (s : Store) (d pid : Nat)
    (patients doctors : List Nat) (dt now : DateTime) (reason notes : String)
    (hr : reason ≠ "") (hp : pid ∈ patients) (hd : d ∈ doctors)
    (hpast : dt.toMinutes ≤ now.toMinutes) (hfresh : s.hasPair d dt = false) :
    create_appointment s d patients (some pid) (some dt) reason notes now
      = (CreateResult.pastDateError, s) ∧
    book_appointment s pid doctors (some d) (some dt) reason now
      = (CreateResult.created s.nextId,
         ⟨s.nextId + 1,
          s.rows ++ [(s.nextId, ⟨pid, d, dt, reason, Status.scheduled, "", now, now⟩)]⟩) := by
  constructor
  · simp [create_appointment, hr, not_not_intro hp, hpast]
  · exact book_success_eq s d pid doctors dt now reason hr hd hfresh

/-- Counterexample to C5 as stated: a patient booking with a past timestamp
(day 3 at 09:00 while now is day 5 at 08:00) is accepted and its row is
persisted. -/
theorem past_booking_persists :
    (DateTime.mk 3 9 0).toMinutes ≤ (DateTime.mk 5 8 0).toMinutes ∧
    book_appointment Store.empty 1 [2] (some 2) (some ⟨3, 9, 0⟩) "flu" ⟨5, 8, 0⟩
      = (CreateResult.created 0,
         ⟨1, [(0, ⟨1, 2, ⟨3, 9, 0⟩, "flu", Status.scheduled, "", ⟨5, 8, 0⟩, ⟨5, 8, 0⟩⟩)]⟩) := by
  decide

/-- Witness for the amended C5 at concrete inputs: the doctor-side path
rejects the past timestamp with no write. -/
theorem past_rejection_amended_witness :
    create_appointment Store.empty 2 [1] (some 1) (some ⟨3, 9, 0⟩) "flu" "" ⟨5, 8, 0⟩
      = (CreateResult.pastDateError, Store.empty) :=
  (past_rejection_amended Store.empty 2 1 [1] [2] ⟨3, 9, 0⟩ ⟨5, 8, 0⟩ "flu" ""
    (by decide) (by decide) (by decide) (by decide) (by decide)).1

lemma uniquePairs_insert {s s' : Store} {a : Appointment} {id : Nat}
    (h : UniquePairs s) (hins : dbInsert s a = some (s', id)) : UniquePairs s' := by
  unfold dbInsert at hins
  by_cases hp : Store.hasPair s a.doctor a.appointment_date
  · rw [if_pos hp] at hins
    exact Option.noConfusion hins
  · rw [if_neg hp] at hins
    simp only [Option.some.injEq, Prod.mk.injEq] at hins
    obtain ⟨hs', _⟩ := hins
    subst hs'
    unfold UniquePairs
    rw [List.pairwise_append]
    refine ⟨h, by simp, ?_⟩
    intro r hr b hb
    simp only [List.mem_singleton] at hb
    subst hb
    rintro ⟨h1, h2⟩
    apply hp
    unfold Store.hasPair
    rw [List.any_eq_true]
    exact ⟨r, hr, by simp [h1, h2]⟩

lemma pairwise_updateRow (rows : List (Nat × Appointment)) (id : Nat)
    (f : Appointment → Appointment)
    (hf : ∀ a, (f a).doctor = a.doctor ∧ (f a).appointment_date = a.appointment_date)
    (h : rows.Pairwise fun r r' =>
      ¬(r.2.doctor = r'.2.doctor ∧ r.2.appointment_date = r'.2.appointment_date)) :
    (updateRow rows id f).Pairwise fun r r' =>
      ¬(r.2.doctor = r'.2.doctor ∧ r.2.appointment_date = r'.2.appointment_date) := by
  have hdoc : ∀ r : Nat × Appointment,
      ((if r.1 = id then (r.1, f r.2) else r) : Nat × Appointment).2.doctor = r.2.doctor := by
    intro r
    by_cases hr : r.1 = id <;> simp [hr, (hf _).1]
  have hdate : ∀ r : Nat × Appointment,
      ((if r.1 = id then (r.1, f r.2) else r) : Nat × Appointment).2.appointment_date
        = r.2.appointment_date := by
    intro r
    by_cases hr : r.1 = id <;> simp [hr, (hf _).2]
  unfold updateRow
  refine List.Pairwise.map _ ?_ h
  intro a b hab hcontra
  apply hab
  refine ⟨?_, ?_⟩
  · rw [← hdoc a, ← hdoc b]
    exact hcontra.1
  · rw [← hdate a, ← hdate b]
    exact hcontra.2

lemma uniquePairs_create (s : Store) (d : Nat) (ps : List Nat)
    (pid : Option Nat) (w : Option DateTime) (reason notes : String)
    (now : DateTime) (h : UniquePairs s) :
    UniquePairs (create_appointment s d ps pid w reason notes now).2 := by
  cases pid with
  | none => exact h
  | some pid' =>
    cases w with
    | none => exact h
    | some dt =>
      simp only [create_appointment]
      split
      · exact h
      · split
        · exact h
        · split
          · exact h
          · split
            · exact h
            · split
              · next s' id hins => exact uniquePairs_insert h hins
              · next => exact h

lemma uniquePairs_book (s : Store) (p : Nat) (ds : List Nat)
    (did : Option Nat) (w : Option DateTime) (reason : String)
    (now : DateTime) (h : UniquePairs s) :
    UniquePairs (book_appointment s p ds did w reason now).2 := by
  cases did with
  | none => exact h
  | some did' =>
    cases w with
    | none => exact h
    | some dt =>
      simp only [book_appointment]
      split
      · exact h
      · split
        · exact h
        · split
          · next s' id hins => exact uniquePairs_insert h hins
          · next => exact h

lemma uniquePairs_complete (s : Store) (d id : Nat) (note : String)
    (now : DateTime) (h : UniquePairs s) :
    UniquePairs (complete_appointment s d id note now).2 := by
  cases hL : lookupByDoctor s id d with
  | none =>
    unfold complete_appointment
    rw [hL]
    exact h
  | some a =>
    rw [complete_appointment_eq s d id note now a hL]
    by_cases hs : a.status = Status.scheduled
    · rw [if_pos hs]
      exact pairwise_updateRow s.rows id
        (fun b =>
          { b with
            status := Status.completed
            notes := if note = "" then b.notes
                     else appendNote b.notes "Completion Notes: " note
            updated_at := now })
        (fun b => ⟨rfl, rfl⟩) h
    · rw [if_neg hs]
      exact h

lemma uniquePairs_cancel (s : Store) (d id : Nat) (reason : String)
    (now : DateTime) (h : UniquePairs s) :
    UniquePairs (cancel_appointment s d id reason now).2 := by
  cases hL : lookupByDoctor s id d with
  | none =>
    unfold cancel_appointment
    rw [hL]
    exact h
  | some a =>
    rw [cancel_appointment_eq s d id reason now a hL]
    by_cases hs : a.status = Status.scheduled
    · rw [if_pos hs]
      exact pairwise_updateRow s.rows id
        (fun b =>
          { b with
            status := Status.cancelled
            notes := if reason = "" then b.notes
                     else appendNote b.notes "Cancellation Reason: " reason
            updated_at := now })
        (fun b => ⟨rfl, rfl⟩) h
    · rw [if_neg hs]
      exact h

lemma uniquePairs_patient_cancel (s : Store) (p id : Nat)
    (now : DateTime) (h : UniquePairs s) :
    UniquePairs (patient_cancel_appointment s p id now).2 := by
  cases hL : lookupByPatient s id p with
  | none =>
    unfold patient_cancel_appointment
    rw [hL]
    exact h
  | some a =>
    rw [patient_cancel_eq s p id now a hL]
    exact pairwise_updateRow s.rows id
      (fun b => { b with status := Status.cancelled, updated_at := now })
      (fun b => ⟨rfl, rfl⟩) h

/-- C2: in every reachable state of the appointment store, at most one row
exists for a given (doctor, appointment_date) pair regardless of status —
the storage constraint is unconditional and every operation preserves it. -/
theorem reachable_unique_pairs (s : Store) (h : Reachable s) : UniquePairs s := by
  induction h with
  | empty => exact List.Pairwise.nil
  | step _ hstep ih =>
    cases hstep with
    | create d ps pid w reason notes now => exact uniquePairs_create _ d ps pid w reason notes now ih
    | book p ds did w reason now => exact uniquePairs_book _ p ds did w reason now ih
    | complete d id note now => exact uniquePairs_complete _ d id note now ih
    | cancel d id reason now => exact uniquePairs_cancel _ d id reason now ih
    | patientCancel p id now => exact uniquePairs_patient_cancel _ p id now ih

/-- Witness for C2 at a concrete reachable store: one successful booking
from the empty store. -/
theorem reachable_unique_pairs_witness :
    UniquePairs (book_appointment Store.empty 1 [2] (some 2) (some ⟨10, 9, 0⟩) "flu" ⟨5, 8, 0⟩).2 :=
  reachable_unique_pairs _
    (Reachable.step Reachable.empty
      (Step.book Store.empty 1 [2] (some 2) (some ⟨10, 9, 0⟩) "flu" ⟨5, 8, 0⟩))

/-- Amended C6: each grid cell holds exactly the doctor's in-week
appointments on that day starting in that hour, so every in-week appointment
whose starting hour lies in the materialised 09:00–17:00 band appears in
exactly one cell of the 7×9 grid; in-week appointments starting outside
that band appear in no cell. -/
theorem schedule_grid_partition (s : Store) (d : Nat) (start : Int)
    (r : Nat × Appointment) :
    (∀ i hour : Nat, r ∈ scheduleCell s d start i hour ↔
      (r ∈ s.rows ∧ r.2.doctor = d ∧ start ≤ r.2.appointment_date.day ∧
        r.2.appointment_date.day ≤ start + 6 ∧
        r.2.appointment_date.day = start + (i : Int) ∧
        r.2.appointment_date.hour = hour)) ∧
    (r ∈ weekAppointments s d start → 9 ≤ r.2.appointment_date.hour →
      r.2.appointment_date.hour ≤ 17 →
      ∃! c : Nat × Nat, c.1 < 7 ∧ 9 ≤ c.2 ∧ c.2 ≤ 17 ∧
        r ∈ scheduleCell s d start c.1 c.2) := by
  have hmem : ∀ i hour : Nat, r ∈ scheduleCell s d start i hour ↔
      (r ∈ s.rows ∧ r.2.doctor = d ∧ start ≤ r.2.appointment_date.day ∧
        r.2.appointment_date.day ≤ start + 6 ∧
        r.2.appointment_date.day = start + (i : Int) ∧
        r.2.appointment_date.hour = hour) := by
    intro i hour
    simp only [scheduleCell, weekAppointments, List.mem_filter, decide_eq_true_eq]
    tauto
  refine ⟨hmem, ?_⟩
  intro hwk h9 h17
  have hin : r ∈ s.rows ∧ r.2.doctor = d ∧ start ≤ r.2.appointment_date.day ∧
      r.2.appointment_date.day ≤ start + 6 := by
    simpa [weekAppointments, List.mem_filter, decide_eq_true_eq, and_assoc] using hwk
  obtain ⟨h1, h2, h3, h4⟩ := hin
  refine ⟨((r.2.appointment_date.day - start).toNat, r.2.appointment_date.hour),
    ⟨by omega, h9, h17, ?_⟩, ?_⟩
  · rw [hmem]
    exact ⟨h1, h2, h3, h4, by omega, rfl⟩
  · rintro ⟨i, hour⟩ ⟨hi7, hh9, hh17, hc⟩
    rw [hmem] at hc
    obtain ⟨_, _, _, _, hday, hhour⟩ := hc
    rw [Prod.ext_iff]
    exact ⟨by simp only []; omega, by simp only []; exact hhour.symm⟩

/-- An appointment inside the displayed week (day 2 of the week starting at
ordinal 0) but starting at 08:00, one hour before the grid's first row. -/
def appt8am : Appointment :=
  ⟨2, 1, ⟨2, 8, 0⟩, "early", Status.scheduled, "", ⟨0, 7, 0⟩, ⟨0, 7, 0⟩⟩

/-- Store containing only the 08:00 appointment. -/
def store8am : Store := ⟨1, [(0, appt8am)]⟩

/-- Counterexample to C6 as stated: the 08:00 appointment falls in the
week's date range yet appears in none of the 7×9 grid cells (days 0–6,
hours 9–17), so the grid does not place every in-range appointment. -/
theorem schedule_grid_drops_appointment :
    (0, appt8am) ∈ weekAppointments store8am 1 0 ∧
    ∀ i ∈ List.range 7, ∀ hour ∈ List.range' 9 9,
      (0, appt8am) ∉ scheduleCell store8am 1 0 i hour := by
  decide

/-- A second concrete appointment at day 2, 10:00, inside the grid band. -/
def appt10am : Appointment :=
  ⟨2, 1, ⟨2, 10, 0⟩, "flu", Status.scheduled, "", ⟨0, 7, 0⟩, ⟨0, 7, 0⟩⟩

/-- Store containing only the 10:00 appointment. -/
def store10am : Store := ⟨1, [(0, appt10am)]⟩

/-- Witness for the amended C6: the 10:00 in-week appointment occupies
exactly one cell of the grid. -/
theorem schedule_grid_partition_witness :
    ∃! c : Nat × Nat, c.1 < 7 ∧ 9 ≤ c.2 ∧ c.2 ≤ 17 ∧
      (0, appt10am) ∈ scheduleCell store10am 1 0 c.1 c.2 :=
  (schedule_grid_partition store10am 1 0 (0, appt10am)).2
    (by decide) (by decide) (by decide)

end EHosp
